import Mathlib

/-!
Verification development for the diy-troubleshooting-chatbot workflow engine.

The definitions below are a shallow embedding of the Python sources under
src/diy_troubleshooting: the domain model (domain/models.py), the runtime
state (state/models.py), the decision schemas (schemas/decisions.py and
execution/schemas/state_machine.py), the step executor
(execution/executor.py), the transition narrator (execution/transitions.py
together with execution/prompts/step_introduction.py), the workflow engine
(execution/engine.py), and the cold-start path of the chat service
(services/chat.py).

Python dictionaries are embedded as association lists, the in-place list
mutations of the Python engine as functional updates of the same lists, and
raised exceptions as Except values carrying the exception message together
with the session state as it stands at the moment of the raise (the Python
objects are mutated in place, so a raise after a mutation leaves the
mutation behind; the embedding keeps that visible).  The LLM provider is a
parameter: a function from the message list to either a parsed StepDecision
or an error string, matching LLMProvider.generate_structured_output which
either parses the provider output into the schema or fails.
-/

namespace DIY

/-- StepType from domain/models.py: classifies step behavior in a workflow. -/
inductive StepType where
  | INSTRUCTION
  | ASK_CHOICE
  | ASK_SLOT
  | RESPOND
  | END
  | CALL_WORKFLOW
deriving DecidableEq, Repr

/-- Media from domain/models.py: visual aid attached to a step. -/
structure Media where
  url : String
  caption : String
deriving DecidableEq, Repr

/-- WorkflowLink from domain/models.py: potential branch to another workflow. -/
structure WorkflowLink where
  target_workflow_id : String
  title : String
  rationale : String
  trigger_keywords : List String := []
deriving DecidableEq, Repr

/-- Option from domain/models.py (named StepOption here because Option is the
Lean option type): a logical outcome for an ask_choice step. -/
structure StepOption where
  id : String
  label : String
  next_step_id : String
deriving DecidableEq, Repr

/-- Step from domain/models.py: fundamental unit of work in a workflow. -/
structure Step where
  id : String
  type : StepType
  goal : String
  background_context : Option String := none
  media : Option Media := none
  warning : Option String := none
  suggested_links : List WorkflowLink := []
  options : List StepOption := []
  next_step : Option String := none
  slot_name : Option String := none
deriving DecidableEq, Repr

/-- Workflow from domain/models.py.  The steps dictionary is embedded as an
association list from step id to Step, looked up with List.lookup. -/
structure Workflow where
  name : String
  start_step : String
  steps : List (String × Step) := []
  title : Option String := none
deriving DecidableEq, Repr

/-- Status literal of WorkflowResult from state/models.py. -/
inductive ResultStatus where
  | SUCCESS
  | ABORTED
deriving DecidableEq, Repr

/-- WorkflowResult from state/models.py: the output of a completed
sub-workflow.  The slots_collected dictionary is an association list; the
values (typed Any in Python) are embedded as strings. -/
structure WorkflowResult where
  source_workflow_id : String
  status : ResultStatus
  summary : String
  slots_collected : List (String × String) := []
deriving DecidableEq, Repr

/-- Frame from state/models.py: a single item on the call stack. -/
structure Frame where
  workflow_name : String
  current_step_id : String
  pending_child_result : Option WorkflowResult := none
deriving DecidableEq, Repr

/-- Role literal of Message from state/models.py. -/
inductive Role where
  | user
  | assistant
deriving DecidableEq, Repr

/-- Message from state/models.py. -/
structure Message where
  role : Role
  content : String
deriving DecidableEq, Repr

/-- SessionState from state/models.py: the global state of one user session.
The updated_at timestamp is omitted (wall-clock time); slots values (typed
Any in Python) are embedded as strings. -/
structure SessionState where
  session_id : String
  stack : List Frame := []
  slots : List (String × String) := []
  history : List Message := []
deriving DecidableEq, Repr

/-- SessionState.active_frame from state/models.py: the top of the stack is
the last element, as in Python where stack[-1] is active. -/
def SessionState.active_frame (session : SessionState) : Option Frame :=
  session.stack.getLast?

/-- StepStatus from schemas/decisions.py: the LLM assessment of the step. -/
inductive StepStatus where
  | IN_PROGRESS
  | COMPLETE
  | CALL_WORKFLOW
  | GIVE_UP
deriving DecidableEq, Repr

/-- StepDecision from schemas/decisions.py: the structured LLM output. -/
structure StepDecision where
  reply_to_user : String
  status : StepStatus
  result_value : Option String := none
  reasoning : String
deriving DecidableEq, Repr

/-- StateMachineTransition from execution/schemas/state_machine.py. -/
inductive StateMachineTransition where
  | HOLD
  | ADVANCE
  | PUSH
  | POP
deriving DecidableEq, Repr

/-- TransitionMeta from execution/schemas/state_machine.py. -/
structure TransitionMeta where
  transition_type : StateMachineTransition
  reasoning : String
  workflow_link : Option WorkflowLink := none
  child_result : Option WorkflowResult := none
deriving DecidableEq, Repr

/-- One chat message of the list handed to the LLM provider (the role and
content dictionaries built in executor.py and transitions.py). -/
structure ChatMsg where
  role : String
  content : String
deriving DecidableEq, Repr

/-- LLMProvider.generate_structured_output from llm/interface.py, embedded
as a function from the built message list to either a parsed StepDecision or
an error string (any exception the call may raise). -/
abbrev LLMProvider := List ChatMsg → Except String StepDecision

/-- WorkflowRepository embedded as an association list from workflow id to
Workflow (the in-memory index of repositories/workflow.py). -/
abbrev WorkflowRepository := List (String × Workflow)

/-- WorkflowRepository.get_workflow: raises ValueError when the id is
missing (repositories/workflow.py). -/
def get_workflow (repo : WorkflowRepository) (workflow_id : String) :
    Except String Workflow :=
  match repo.lookup workflow_id with
  | some w => Except.ok w
  | none => Except.error ("Workflow \x27" ++ workflow_id ++ "\x27 not found.")

/-- WorkflowRepository.workflow_exists from repositories/workflow.py. -/
def workflow_exists (repo : WorkflowRepository) (workflow_id : String) : Bool :=
  (repo.lookup workflow_id).isSome

/-- Python rendering of an Optional[str] inside an f-string: None prints as
the four letters None. -/
def pyDisplayOpt : Option String → String
  | none => "None"
  | some s => s

/-- Python truthiness of an Optional[str]: None and the empty string are
falsy. -/
def strTruthy : Option String → Bool
  | none => false
  | some s => s ≠ ""

/-- Role literal as the string sent to the LLM provider. -/
def Role.toRoleString : Role → String
  | Role.user => "user"
  | Role.assistant => "assistant"

/-- ResultStatus literal as the string interpolated into prompts. -/
def ResultStatus.toStatusString : ResultStatus → String
  | ResultStatus.SUCCESS => "SUCCESS"
  | ResultStatus.ABORTED => "ABORTED"

/-- Message list build shared by StepExecutor.run_turn and introduce_step:
system prompt, then the history, then the user message if the input is
non-empty (Python truthiness of the string). -/
def buildMessages (system_prompt : String) (history : List Message)
    (user_input : String) : List ChatMsg :=
  { role := "system", content := system_prompt } ::
    (history.map fun m => { role := m.role.toRoleString, content := m.content }) ++
      (if user_input = "" then [] else [{ role := "user", content := user_input }])

/-- StepExecutor._build_system_prompt from execution/executor.py: the
step-execution prompt, assembled by string concatenation exactly as the
Python code appends its blocks.  A None background_context interpolates as
the word None (Python f-string); the warning block requires a truthy
warning; the mailbox block requires a pending child result on the frame. -/
def build_system_prompt (step : Step) (frame : Frame) : String :=
  let p0 := "You are an expert DIY Home Repair Assistant. " ++
    "You are guiding a user through a specific troubleshooting step.\n\n"
  let p1 := p0 ++ "CURRENT STEP GOAL: " ++ step.goal ++ "\n" ++
    "CONTEXT: " ++ pyDisplayOpt step.background_context ++ "\n\n"
  let p2 :=
    if strTruthy step.warning then
      p1 ++ "CRITICAL SAFETY WARNING: " ++ step.warning.getD "" ++ "\n" ++
        "You MUST ensure the user acknowledges this warning before proceeding.\n\n"
    else p1
  let p3 :=
    match frame.pending_child_result with
    | some result =>
        p2 ++ "SYSTEM NOTIFICATION: A sub-task has just finished.\n" ++
          "Sub-task Status: " ++ result.status.toStatusString ++ "\n" ++
          "Sub-task Summary: " ++ result.summary ++ "\n" ++
          "INSTRUCTION: Welcome the user back. Use this result to determine if the current step goal is now met.\n\n"
    | none => p2
  let p4 := p3 ++ "INSTRUCTIONS:\n" ++
    "1. If the user has satisfied the Goal (or confirmed the action), set status=\x27COMPLETE\x27.\n" ++
    "2. If the user is struggling or asks for help, provide guidance based on the Context.\n" ++
    "3. If the user encounters a danger or cannot perform the step, set status=\x27GIVE_UP\x27.\n"
  let p5 :=
    if step.type = StepType.ASK_CHOICE ∧ step.options ≠ [] then
      p4 ++ "\nVALID OUTCOMES (for \x27result_value\x27 when COMPLETE):\n" ++
        String.join (step.options.map fun opt =>
          "- ID: \x27" ++ opt.id ++ "\x27 | Description: " ++ opt.label ++ "\n") ++
        "When status is COMPLETE, you MUST set \x27result_value\x27 to one of the IDs above.\n"
    else p4
  if step.suggested_links ≠ [] then
    p5 ++ "\nAVAILABLE HELPER WORKFLOWS:\n" ++
      "If the user explicitly asks for help with a related sub-task, you can branch to one of these workflows.\n" ++
      String.join (step.suggested_links.map fun link =>
        "- ID: \x27" ++ link.target_workflow_id ++ "\x27 | Title: " ++ link.title ++ "\n" ++
          "  When to offer: " ++ link.rationale ++ "\n") ++
      "\nTo branch to a helper workflow:\n" ++
      "- Set status=\x27CALL_WORKFLOW\x27\n" ++
      "- Set result_value to the workflow ID\n" ++
      "IMPORTANT: Only use CALL_WORKFLOW when the user clearly needs or requests the sub-task. " ++
      "Do not proactively suggest branching unless the user is stuck.\n"
  else p5

/-- StepExecutor.run_turn from execution/executor.py: build the system
prompt and message list, call the LLM, and on any failure return the safe
fallback decision. -/
def run_turn (llm : LLMProvider) (step : Step) (frame : Frame)
    (user_input : String) (history : List Message) : StepDecision :=
  let system_prompt := build_system_prompt step frame
  let messages := buildMessages system_prompt history user_input
  match llm messages with
  | Except.ok decision => decision
  | Except.error e =>
      { reply_to_user := "System Error. Please try again."
        status := StepStatus.IN_PROGRESS
        result_value := none
        reasoning := "Error: " ++ e }

/-- Transition-context block of the step-introduction prompt, from
execution/prompts/step_introduction.py (the builder the repository keeps for
the prompt that introduce_step renders through its template loader).  The
POP branch raises ValueError when the transition metadata carries no child
result, so the builder is Except-valued.  The Python match statement has no
HOLD case (the function then returns None, which would interpolate as the
word None); the narrator is only invoked for the other three kinds. -/
def build_transition_context (from_step : Step) (meta : TransitionMeta) :
    Except String String :=
  match meta.transition_type with
  | StateMachineTransition.ADVANCE =>
      Except.ok ("TRANSITION: Step completed, advancing to next step.\n" ++
        "Completed step goal: " ++ from_step.goal ++ "\n" ++
        "Why it\x27s complete: " ++ meta.reasoning)
  | StateMachineTransition.PUSH =>
      Except.ok ("TRANSITION: Branching to helper sub-workflow.\n" ++
        "Parent step: " ++ from_step.goal ++ "\n" ++
        "Sub-workflow: " ++
          (match meta.workflow_link with
           | some link => link.title
           | none => "sub-workflow") ++ "\n" ++
        "Rationale: " ++
          (match meta.workflow_link with
           | some link => link.rationale
           | none => ""))
  | StateMachineTransition.POP =>
      match meta.child_result with
      | none => Except.error "POP transition requires child_result"
      | some child =>
          Except.ok ("TRANSITION: Sub-workflow completed, returning to main task.\n" ++
            "Completed: " ++ child.source_workflow_id ++ "\n" ++
            "Summary: " ++ child.summary)
  | StateMachineTransition.HOLD => Except.ok "None"

/-- Optional details block of the step-introduction prompt
(execution/prompts/step_introduction.py, _build_step_details). -/
def build_step_details (step : Step) : String :=
  String.intercalate "\n"
    ((if strTruthy step.background_context then
        ["Context: " ++ step.background_context.getD ""] else []) ++
     (if strTruthy step.warning then
        ["SAFETY WARNING: " ++ step.warning.getD "",
         "You MUST include this warning prominently in your message."] else []))

/-- build_step_introduction_prompt from
execution/prompts/step_introduction.py: the full step-introduction system
prompt.  Except-valued because the POP context block can raise. -/
def build_step_introduction_prompt (from_step to_step : Step)
    (meta : TransitionMeta) : Except String String :=
  (build_transition_context from_step meta).map fun ctx =>
    "You are an expert DIY Home Repair Assistant introducing the next step.\n\n" ++
    "Your task is to generate a response that:\n" ++
    "1. Briefly acknowledges what just happened (the transition)\n" ++
    "2. Smoothly introduces the current step the user needs to complete\n" ++
    "3. Includes any safety warnings with appropriate emphasis\n\n" ++
    "Keep the message concise but warm. Avoid redundancy.\n\n" ++
    ctx ++ "\n\n" ++
    "STEP TO INTRODUCE:\n" ++
    "Goal: " ++ to_step.goal ++ "\n" ++
    build_step_details to_step ++ "\n\n" ++
    "OUTPUT INSTRUCTIONS:\n" ++
    "- reply_to_user: Your natural, flowing message to the user\n" ++
    "- status: Must be \x22IN_PROGRESS\x22 (the user hasn\x27t started this step yet)\n" ++
    "- reasoning: Brief explanation of the transition\n" ++
    "- result_value: Leave empty (null)"

/-- introduce_step from execution/transitions.py: render the
step-introduction prompt (a render failure propagates, because the render
call sits before the try block), build the message list, call the LLM, and
on an LLM failure return the deterministic fallback whose reply is the
phrase Lets proceed followed by the goal of the step being introduced. -/
def introduce_step (llm : LLMProvider) (from_step to_step : Step)
    (meta : TransitionMeta) (history : List Message) (user_input : String) :
    Except String StepDecision :=
  match build_step_introduction_prompt from_step to_step meta with
  | Except.error e => Except.error e
  | Except.ok system_prompt =>
      let messages := buildMessages system_prompt history user_input
      match llm messages with
      | Except.ok decision => Except.ok decision
      | Except.error e =>
          Except.ok
            { reply_to_user := "Let\x27s proceed. " ++ to_step.goal
              status := StepStatus.IN_PROGRESS
              result_value := none
              reasoning := "Error during introduction: " ++ e }

/-- WorkflowEngine._resolve_next_step_id from execution/engine.py: for an
ask_choice step with a non-empty options list, the first option whose id
equals the decision result_value wins; with no match the default next_step
is used (also for every other step type). -/
def resolve_next_step_id (current_step : Step) (decision : StepDecision) :
    Option String :=
  if current_step.type = StepType.ASK_CHOICE ∧ current_step.options ≠ [] then
    match current_step.options.find?
        (fun opt => decision.result_value == some opt.id) with
    | some selected_option => some selected_option.next_step_id
    | none => current_step.next_step
  else current_step.next_step

/-- WorkflowResult built by WorkflowEngine._pop_frame from
execution/engine.py when a parent frame exists. -/
def child_result_of (completed_workflow : Workflow)
    (final_decision : StepDecision) : WorkflowResult :=
  { source_workflow_id := completed_workflow.name
    status := ResultStatus.SUCCESS
    summary := final_decision.reply_to_user
    slots_collected := [] }

/-- WorkflowEngine._pop_frame from execution/engine.py: pop the current
frame (the last stack element); if a parent remains, deposit the result in
its mailbox.  Mutating stack[-1] in place is embedded as rebuilding the
list with its last element replaced. -/
def pop_frame (session : SessionState) (completed_workflow : Workflow)
    (final_decision : StepDecision) : SessionState :=
  let stack1 := session.stack.dropLast
  match stack1.getLast? with
  | none => { session with stack := stack1 }
  | some parent_frame =>
      { session with
        stack := stack1.dropLast ++
          [{ parent_frame with
              pending_child_result :=
                some (child_result_of completed_workflow final_decision) }] }

/-- WorkflowEngine._push_child_workflow from execution/engine.py: fetch the
target workflow (a fetch failure raises) and append a fresh frame at its
start step. -/
def push_child_workflow (repo : WorkflowRepository) (session : SessionState)
    (target_workflow_id : String) : Except String SessionState :=
  (get_workflow repo target_workflow_id).map fun target_workflow =>
    { session with
      stack := session.stack ++
        [{ workflow_name := target_workflow_id
           current_step_id := target_workflow.start_step
           pending_child_result := none }] }

/-- Session state after the ADVANCE branch of _apply_decision sets
frame.current_step_id: the frame argument aliases the last stack element,
so the mutation replaces that element. -/
def advanceFrame (session : SessionState) (frame : Frame)
    (next_step_id : String) : SessionState :=
  { session with
    stack := session.stack.dropLast ++
      [{ frame with current_step_id := next_step_id }] }

/-- ValueError message of _apply_decision when no next step resolves. -/
def missing_next_step_error (current_step : Step)
    (decision : StepDecision) : String :=
  "Step \x27" ++ current_step.id ++
    "\x27 has no next_step defined and no matching option for result_value \x27" ++
    pyDisplayOpt decision.result_value ++ "\x27"

/-- ValueError message of _apply_decision when the resolved edge dangles. -/
def dangling_edge_error (current_step : Step) (next_step_id : String) :
    String :=
  "Step \x27" ++ current_step.id ++
    "\x27 references non-existent next step \x27" ++ next_step_id ++ "\x27"

/-- WorkflowEngine._apply_decision from execution/engine.py: translate a
StepDecision into a StateMachineTransition, mutating the session.
IN_PROGRESS and GIVE_UP hold; COMPLETE pops when the current step is END
and otherwise advances along the resolved edge (raising on a missing or
dangling edge); CALL_WORKFLOW holds on a falsy or unknown target and
otherwise pushes a child frame.  The unknown-status warning branch is
unreachable here because StepStatus has exactly the four constructors. -/
def apply_decision (repo : WorkflowRepository) (session : SessionState)
    (frame : Frame) (workflow : Workflow) (decision : StepDecision) :
    Except String (SessionState × StateMachineTransition) :=
  match decision.status with
  | StepStatus.IN_PROGRESS => Except.ok (session, StateMachineTransition.HOLD)
  | StepStatus.GIVE_UP => Except.ok (session, StateMachineTransition.HOLD)
  | StepStatus.COMPLETE =>
      match workflow.steps.lookup frame.current_step_id with
      | none => Except.error ("KeyError: " ++ frame.current_step_id)
      | some current_step =>
          if current_step.type = StepType.END then
            Except.ok (pop_frame session workflow decision,
              StateMachineTransition.POP)
          else
            match resolve_next_step_id current_step decision with
            | none => Except.error (missing_next_step_error current_step decision)
            | some next_step_id =>
                if (workflow.steps.lookup next_step_id).isSome then
                  Except.ok (advanceFrame session frame next_step_id,
                    StateMachineTransition.ADVANCE)
                else
                  Except.error (dangling_edge_error current_step next_step_id)
  | StepStatus.CALL_WORKFLOW =>
      match decision.result_value with
      | none => Except.ok (session, StateMachineTransition.HOLD)
      | some target_workflow_id =>
          if target_workflow_id = "" then
            Except.ok (session, StateMachineTransition.HOLD)
          else if workflow_exists repo target_workflow_id then
            match push_child_workflow repo session target_workflow_id with
            | Except.ok pushed => Except.ok (pushed, StateMachineTransition.PUSH)
            | Except.error e => Except.error e
          else Except.ok (session, StateMachineTransition.HOLD)

/-- WorkflowEngine._find_workflow_link from execution/engine.py. -/
def find_workflow_link (step : Step) (target_workflow_id : Option String) :
    Option WorkflowLink :=
  match target_workflow_id with
  | none => none
  | some target =>
      if target = "" then none
      else if step.suggested_links = [] then none
      else step.suggested_links.find?
        (fun link => link.target_workflow_id == target)

/-- WorkflowEngine._get_execution_context from execution/engine.py: the
active frame, its workflow definition, and its current step; raises on an
empty stack, an unknown workflow, or an unknown step id. -/
def get_execution_context (repo : WorkflowRepository)
    (session : SessionState) : Except String (Frame × Workflow × Step) :=
  match session.stack.getLast? with
  | none => Except.error "Session stack is empty."
  | some active_frame =>
      match get_workflow repo active_frame.workflow_name with
      | Except.error e => Except.error e
      | Except.ok workflow_def =>
          match workflow_def.steps.lookup active_frame.current_step_id with
          | none => Except.error ("KeyError: " ++ active_frame.current_step_id)
          | some step_def => Except.ok (active_frame, workflow_def, step_def)

/-- Mailbox clearing done by handle_message right after _apply_decision
(execution/engine.py, the comment there reads: clear the child result
mailbox now that we have processed it): the pending_child_result of
whichever frame is now active is set to None. -/
def clear_active_mailbox (session : SessionState) : SessionState :=
  match session.stack.getLast? with
  | none => session
  | some activeFrame =>
      { session with
        stack := session.stack.dropLast ++
          [{ activeFrame with pending_child_result := none }] }

/-- WorkflowEngine._update_history from execution/engine.py: append the
user message when the input is truthy, then the assistant reply. -/
def update_history (session : SessionState) (user_input : String)
    (reply : String) : SessionState :=
  let h1 :=
    if user_input = "" then session.history
    else session.history ++ [{ role := Role.user, content := user_input }]
  { session with
    history := h1 ++ [{ role := Role.assistant, content := reply }] }

/-- WorkflowEngine._generate_transition_decision from execution/engine.py:
reload the execution context from the (already mutated) session, build the
TransitionMeta from the decision, the matching workflow link of the
previous step, and the pending child result of the new active frame, then
call the narrator. -/
def generate_transition_decision (repo : WorkflowRepository)
    (narrator_llm : LLMProvider) (session : SessionState)
    (previous_step : Step) (transition : StateMachineTransition)
    (decision : StepDecision) (user_input : String) :
    Except String StepDecision :=
  match get_execution_context repo session with
  | Except.error e => Except.error e
  | Except.ok (new_frame, _, next_step) =>
      let meta : TransitionMeta :=
        { transition_type := transition
          reasoning := decision.reasoning
          workflow_link := find_workflow_link previous_step decision.result_value
          child_result := new_frame.pending_child_result }
      introduce_step narrator_llm previous_step next_step meta
        session.history user_input

/-- WorkflowEngine.handle_message from execution/engine.py, the per-turn
orchestrator.  An error result carries the exception message together with
the session as mutated up to the moment of the raise (the Python engine
mutates the session object in place and does not roll back).  A successful
result carries the final session and the decision returned to the caller. -/
def handle_message (repo : WorkflowRepository) (executor_llm : LLMProvider)
    (narrator_llm : LLMProvider) (session : SessionState)
    (user_input : String) :
    Except (String × SessionState) (SessionState × StepDecision) :=
  if session.stack.getLast? = none then
    Except.error ("Cannot handle message: session has no active workflow", session)
  else
    match get_execution_context repo session with
    | Except.error e => Except.error (e, session)
    | Except.ok (frame, workflow, current_step) =>
        let decision := run_turn executor_llm current_step frame user_input
          session.history
        match apply_decision repo session frame workflow decision with
        | Except.error e => Except.error (e, session)
        | Except.ok (mutated, fsm_transition) =>
            let cleared := clear_active_mailbox mutated
            if fsm_transition = StateMachineTransition.HOLD ∨
                cleared.stack = [] then
              Except.ok
                (update_history cleared user_input decision.reply_to_user,
                 decision)
            else
              match generate_transition_decision repo narrator_llm cleared
                  current_step fsm_transition decision user_input with
              | Except.error e => Except.error (e, cleared)
              | Except.ok final_decision =>
                  Except.ok
                    (update_history cleared user_input
                      final_decision.reply_to_user,
                     final_decision)

/-- ChatService._handle_cold_start from services/chat.py, restricted to its
session-state effect: when the router returned a workflow id, fetch the
workflow (a fetch failure raises) and push the initial frame; otherwise
leave the session untouched.  The confidence score of the router result is
only logged and is omitted. -/
def handle_cold_start (repo : WorkflowRepository) (session : SessionState)
    (router_match : Option String) : Except String SessionState :=
  match router_match with
  | none => Except.ok session
  | some workflow_id =>
      (get_workflow repo workflow_id).map fun workflow =>
        { session with
          stack := session.stack ++
            [{ workflow_name := workflow.name
               current_step_id := workflow.start_step
               pending_child_result := none }] }

/-- Concrete LLM provider returning a fixed parsed decision. -/
def llmOf (d : StepDecision) : LLMProvider := fun _ => Except.ok d

/-- Concrete LLM provider whose call always fails. -/
def llmFailing (e : String) : LLMProvider := fun _ => Except.error e

/-- Concrete instruction step whose default next step is an END step. -/
def stepA1 : Step :=
  { id := "a1", type := StepType.INSTRUCTION, goal := "Do the thing.",
    next_step := some "end_a" }

/-- Concrete END step of the first scenario workflow. -/
def stepAEnd : Step :=
  { id := "end_a", type := StepType.END, goal := "All fixed." }

/-- Concrete workflow with an instruction step leading to an END step. -/
def wfA : Workflow :=
  { name := "wf_a", start_step := "a1",
    steps := [("a1", stepA1), ("end_a", stepAEnd)] }

/-- Concrete frame sitting on the instruction step of wfA. -/
def frameA : Frame := { workflow_name := "wf_a", current_step_id := "a1" }

/-- Concrete repository holding wfA. -/
def repoA : WorkflowRepository := [("wf_a", wfA)]

/-- Concrete single-frame session on the instruction step of wfA. -/
def sessA : SessionState := { session_id := "sa", stack := [frameA] }

/-- Concrete COMPLETE decision with no result value. -/
def decComplete : StepDecision :=
  { reply_to_user := "Great, done.", status := StepStatus.COMPLETE,
    reasoning := "user confirmed" }

/-- Concrete narrator decision used when the narrator LLM succeeds. -/
def narrDec : StepDecision :=
  { reply_to_user := "Moving on.", status := StepStatus.IN_PROGRESS,
    reasoning := "intro" }

/-- Expected session at the end of the C1 counterexample turn: still one
frame, now sitting on the END step, with the turn appended to history. -/
def sessA_after : SessionState :=
  { session_id := "sa",
    stack := [{ workflow_name := "wf_a", current_step_id := "end_a" }],
    history := [{ role := Role.user, content := "done" },
                { role := Role.assistant, content := "Moving on." }] }

/-- Concrete END step of the child workflow in the pop scenario. -/
def endStepC : Step :=
  { id := "c_end", type := StepType.END, goal := "Child finished." }

/-- Concrete child workflow consisting of a single END step. -/
def childWfC : Workflow :=
  { name := "wf_child", start_step := "c_end",
    steps := [("c_end", endStepC)] }

/-- Concrete parent step waiting for the child workflow. -/
def parentStepC : Step :=
  { id := "p1", type := StepType.INSTRUCTION, goal := "Parent step.",
    next_step := some "p1" }

/-- Concrete parent workflow of the pop scenario. -/
def parentWfC : Workflow :=
  { name := "wf_parent", start_step := "p1",
    steps := [("p1", parentStepC)] }

/-- Concrete repository holding parent and child workflows. -/
def repoC : WorkflowRepository :=
  [("wf_parent", parentWfC), ("wf_child", childWfC)]

/-- Concrete parent frame of the pop scenario. -/
def parentFrameC : Frame :=
  { workflow_name := "wf_parent", current_step_id := "p1" }

/-- Concrete child frame of the pop scenario, sitting on the END step. -/
def childFrameC : Frame :=
  { workflow_name := "wf_child", current_step_id := "c_end" }

/-- Concrete two-frame session: parent below, child on its END step on top. -/
def sessC : SessionState :=
  { session_id := "sc", stack := [parentFrameC, childFrameC] }

/-- Concrete COMPLETE decision that finishes the child END step. -/
def decC : StepDecision :=
  { reply_to_user := "All done!", status := StepStatus.COMPLETE,
    reasoning := "child complete" }

/-- Session immediately after _apply_decision pops the child frame of
sessC: the parent is back on top with the child result in its mailbox. -/
def sessC_popped : SessionState :=
  { session_id := "sc",
    stack := [{ parentFrameC with
      pending_child_result := some (child_result_of childWfC decC) }] }

/-- Session carried by the error with which the pop turn on sessC ends:
the child frame is gone and the freshly delivered mailbox has already been
cleared again. -/
def sessC_err : SessionState :=
  { session_id := "sc", stack := [parentFrameC] }

/-- Concrete ask_choice step with two options and a default next step. -/
def stepB1 : Step :=
  { id := "b1", type := StepType.ASK_CHOICE, goal := "Pick a side.",
    options := [{ id := "opt1", label := "Left", next_step_id := "b2" },
                { id := "opt2", label := "Right", next_step_id := "b3" }],
    next_step := some "b4" }

/-- Concrete successor step of the first option. -/
def stepB2 : Step :=
  { id := "b2", type := StepType.INSTRUCTION, goal := "Go left." }

/-- Concrete successor step of the second option. -/
def stepB3 : Step :=
  { id := "b3", type := StepType.INSTRUCTION, goal := "Go right." }

/-- Concrete default successor step of the choice step. -/
def stepB4 : Step :=
  { id := "b4", type := StepType.INSTRUCTION, goal := "Go straight." }

/-- Concrete workflow around the ask_choice step. -/
def wfB : Workflow :=
  { name := "wf_b", start_step := "b1",
    steps := [("b1", stepB1), ("b2", stepB2), ("b3", stepB3), ("b4", stepB4)] }

/-- Concrete frame sitting on the ask_choice step. -/
def frameB : Frame := { workflow_name := "wf_b", current_step_id := "b1" }

/-- Concrete repository holding wfB. -/
def repoB : WorkflowRepository := [("wf_b", wfB)]

/-- Concrete session on the ask_choice step. -/
def sessB : SessionState := { session_id := "sb", stack := [frameB] }

/-- Concrete COMPLETE decision selecting the first option. -/
def decChoice : StepDecision :=
  { reply_to_user := "Left it is.", status := StepStatus.COMPLETE,
    result_value := some "opt1", reasoning := "picked left" }

/-- Concrete COMPLETE decision whose result value matches no option. -/
def decChoiceNoMatch : StepDecision :=
  { reply_to_user := "Hmm.", status := StepStatus.COMPLETE,
    result_value := some "nope", reasoning := "no option fits" }

/-- Concrete CALL_WORKFLOW decision with a missing target. -/
def decCallNone : StepDecision :=
  { reply_to_user := "Branching.", status := StepStatus.CALL_WORKFLOW,
    result_value := none, reasoning := "wants helper" }

/-- Concrete CALL_WORKFLOW decision naming an unknown workflow. -/
def decCallGhost : StepDecision :=
  { reply_to_user := "Branching.", status := StepStatus.CALL_WORKFLOW,
    result_value := some "wf_ghost", reasoning := "wants helper" }

/-- Concrete dead-end step: no next step, no options. -/
def stepD1 : Step :=
  { id := "d1", type := StepType.INSTRUCTION, goal := "Dead end." }

/-- Concrete workflow whose only step is the dead end. -/
def wfD : Workflow :=
  { name := "wf_d", start_step := "d1", steps := [("d1", stepD1)] }

/-- Concrete frame on the dead-end step. -/
def frameD : Frame := { workflow_name := "wf_d", current_step_id := "d1" }

/-- Concrete repository holding wfD. -/
def repoD : WorkflowRepository := [("wf_d", wfD)]

/-- Concrete session on the dead-end step. -/
def sessD : SessionState := { session_id := "sd", stack := [frameD] }

/-- Concrete ADVANCE transition metadata with no link and no child result. -/
def metaAdvance : TransitionMeta :=
  { transition_type := StateMachineTransition.ADVANCE, reasoning := "done" }

/-- Concrete narrator decision whose status is COMPLETE, as a successful
LLM call is free to produce. -/
def narrDecComplete : StepDecision :=
  { reply_to_user := "That wraps it up.", status := StepStatus.COMPLETE,
    reasoning := "narrator chose COMPLETE" }

/-!
Shared helper lemmas about the embedded engine, used by several of the
claim theorems below.
-/

theorem apply_decision_of_complete (repo : WorkflowRepository)
    (session : SessionState) (frame : Frame) (workflow : Workflow)
    (decision : StepDecision) (current_step : Step)
    (hst : decision.status = StepStatus.COMPLETE)
    (hstep : workflow.steps.lookup frame.current_step_id = some current_step) :
    apply_decision repo session frame workflow decision =
      if current_step.type = StepType.END then
        Except.ok (pop_frame session workflow decision,
          StateMachineTransition.POP)
      else
        match resolve_next_step_id current_step decision with
        | none => Except.error (missing_next_step_error current_step decision)
        | some next_step_id =>
            if (workflow.steps.lookup next_step_id).isSome then
              Except.ok (advanceFrame session frame next_step_id,
                StateMachineTransition.ADVANCE)
            else Except.error (dangling_edge_error current_step next_step_id) := by
  unfold apply_decision
  rw [hst, hstep]

theorem apply_decision_of_in_progress (repo : WorkflowRepository)
    (session : SessionState) (frame : Frame) (workflow : Workflow)
    (decision : StepDecision)
    (hst : decision.status = StepStatus.IN_PROGRESS) :
    apply_decision repo session frame workflow decision =
      Except.ok (session, StateMachineTransition.HOLD) := by
  unfold apply_decision
  rw [hst]

theorem apply_decision_of_call (repo : WorkflowRepository)
    (session : SessionState) (frame : Frame) (workflow : Workflow)
    (decision : StepDecision)
    (hst : decision.status = StepStatus.CALL_WORKFLOW) :
    apply_decision repo session frame workflow decision =
      match decision.result_value with
      | none => Except.ok (session, StateMachineTransition.HOLD)
      | some target_workflow_id =>
          if target_workflow_id = "" then
            Except.ok (session, StateMachineTransition.HOLD)
          else if workflow_exists repo target_workflow_id then
            match push_child_workflow repo session target_workflow_id with
            | Except.ok pushed => Except.ok (pushed, StateMachineTransition.PUSH)
            | Except.error e => Except.error e
          else Except.ok (session, StateMachineTransition.HOLD) := by
  unfold apply_decision
  rw [hst]

theorem run_turn_of_error (llm : LLMProvider) (step : Step) (frame : Frame)
    (user_input : String) (history : List Message) (e : String)
    (h : llm (buildMessages (build_system_prompt step frame) history
      user_input) = Except.error e) :
    run_turn llm step frame user_input history =
      { reply_to_user := "System Error. Please try again."
        status := StepStatus.IN_PROGRESS
        result_value := none
        reasoning := "Error: " ++ e } := by
  simp only [run_turn, h]

theorem run_turn_of_ok (llm : LLMProvider) (step : Step) (frame : Frame)
    (user_input : String) (history : List Message) (d : StepDecision)
    (h : llm (buildMessages (build_system_prompt step frame) history
      user_input) = Except.ok d) :
    run_turn llm step frame user_input history = d := by
  simp only [run_turn, h]


theorem pop_frame_slots (s : SessionState) (w : Workflow) (d : StepDecision) :
    (pop_frame s w d).slots = s.slots := by
  simp only [pop_frame]
  split <;> rfl

theorem clear_active_mailbox_slots (s : SessionState) :
    (clear_active_mailbox s).slots = s.slots := by
  simp only [clear_active_mailbox]
  split <;> rfl

theorem update_history_slots (s : SessionState) (u r : String) :
    (update_history s u r).slots = s.slots := rfl

theorem push_child_workflow_slots (repo : WorkflowRepository)
    (s : SessionState) (t : String) (s' : SessionState)
    (h : push_child_workflow repo s t = Except.ok s') : s'.slots = s.slots := by
  unfold push_child_workflow at h
  cases hg : get_workflow repo t with
  | ok w => rw [hg] at h; simp only [Except.map] at h; injection h with h; rw [← h]
  | error e => rw [hg] at h; simp only [Except.map] at h; exact absurd h (by simp)

theorem apply_decision_slots (repo : WorkflowRepository) (s : SessionState)
    (f : Frame) (w : Workflow) (d : StepDecision) (s' : SessionState)
    (t : StateMachineTransition)
    (h : apply_decision repo s f w d = Except.ok (s', t)) :
    s'.slots = s.slots := by
  unfold apply_decision at h
  split at h
  · injection h with h; rw [← (Prod.mk.injEq ..).mp h |>.1]
  · injection h with h; rw [← (Prod.mk.injEq ..).mp h |>.1]
  · split at h
    · exact absurd h (by simp)
    · split at h
      · injection h with h
        rw [← (Prod.mk.injEq ..).mp h |>.1]
        exact pop_frame_slots ..
      · split at h
        · exact absurd h (by simp)
        · split at h
          · injection h with h; rw [← (Prod.mk.injEq ..).mp h |>.1]; rfl
          · exact absurd h (by simp)
  · split at h
    · injection h with h; rw [← (Prod.mk.injEq ..).mp h |>.1]
    · split at h
      · injection h with h; rw [← (Prod.mk.injEq ..).mp h |>.1]
      · split at h
        · rename_i hpush
          split at h
          · injection h with h
            rw [← (Prod.mk.injEq ..).mp h |>.1]
            exact push_child_workflow_slots _ _ _ _ (by assumption)
          · exact absurd h (by simp)
        · injection h with h; rw [← (Prod.mk.injEq ..).mp h |>.1]


theorem apply_decision_pop_shape (repo : WorkflowRepository)
    (s : SessionState) (f : Frame) (w : Workflow) (d : StepDecision)
    (s' : SessionState)
    (h : apply_decision repo s f w d = Except.ok (s', StateMachineTransition.POP)) :
    s' = pop_frame s w d := by
  unfold apply_decision at h
  split at h
  · injection h with h; exact absurd ((Prod.mk.injEq ..).mp h |>.2) (by simp)
  · injection h with h; exact absurd ((Prod.mk.injEq ..).mp h |>.2) (by simp)
  · split at h
    · exact absurd h (by simp)
    · split at h
      · injection h with h; exact ((Prod.mk.injEq ..).mp h |>.1).symm
      · split at h
        · exact absurd h (by simp)
        · split at h
          · injection h with h
            exact absurd ((Prod.mk.injEq ..).mp h |>.2) (by simp)
          · exact absurd h (by simp)
  · split at h
    · injection h with h; exact absurd ((Prod.mk.injEq ..).mp h |>.2) (by simp)
    · split at h
      · injection h with h; exact absurd ((Prod.mk.injEq ..).mp h |>.2) (by simp)
      · split at h
        · split at h
          · injection h with h
            exact absurd ((Prod.mk.injEq ..).mp h |>.2) (by simp)
          · exact absurd h (by simp)
        · injection h with h; exact absurd ((Prod.mk.injEq ..).mp h |>.2) (by simp)

theorem pop_frame_parent_mailbox (s : SessionState) (w : Workflow)
    (d : StepDecision) (parent : Frame)
    (hp : (pop_frame s w d).stack.getLast? = some parent) :
    parent.pending_child_result = some (child_result_of w d) := by
  simp only [pop_frame] at hp
  split at hp
  · rename_i hnone
    rw [hnone] at hp
    exact absurd hp (by simp)
  · rw [List.getLast?_concat] at hp
    injection hp with hp
    rw [← hp]


theorem handle_message_slots (repo : WorkflowRepository) (eL nL : LLMProvider)
    (s : SessionState) (u : String) :
    (∀ s' d, handle_message repo eL nL s u = Except.ok (s', d) →
      s'.slots = s.slots) ∧
    (∀ m s', handle_message repo eL nL s u = Except.error (m, s') →
      s'.slots = s.slots) := by
  constructor
  · intro s' d h
    simp only [handle_message] at h
    split at h
    · exact absurd h (by simp)
    · split at h
      · exact absurd h (by simp)
      · split at h
        · exact absurd h (by simp)
        · rename_i pair happ
          split at h
          · injection h with h
            rw [← ((Prod.mk.injEq ..).mp h).1, update_history_slots,
              clear_active_mailbox_slots,
              apply_decision_slots _ _ _ _ _ _ _ happ]
          · split at h
            · exact absurd h (by simp)
            · injection h with h
              rw [← ((Prod.mk.injEq ..).mp h).1, update_history_slots,
                clear_active_mailbox_slots,
                apply_decision_slots _ _ _ _ _ _ _ happ]
  · intro m s' h
    simp only [handle_message] at h
    split at h
    · injection h with h; rw [← ((Prod.mk.injEq ..).mp h).2]
    · split at h
      · injection h with h; rw [← ((Prod.mk.injEq ..).mp h).2]
      · split at h
        · injection h with h; rw [← ((Prod.mk.injEq ..).mp h).2]
        · rename_i pair happ
          split at h
          · exact absurd h (by simp)
          · split at h
            · injection h with h
              rw [← ((Prod.mk.injEq ..).mp h).2, clear_active_mailbox_slots,
                apply_decision_slots _ _ _ _ _ _ _ happ]
            · exact absurd h (by simp)

theorem handle_cold_start_slots (repo : WorkflowRepository)
    (s : SessionState) (router_match : Option String) (s' : SessionState)
    (h : handle_cold_start repo s router_match = Except.ok s') :
    s'.slots = s.slots := by
  unfold handle_cold_start at h
  split at h
  · injection h with h; rw [← h]
  · rename_i wid
    cases hg : get_workflow repo wid with
    | ok w =>
        rw [hg] at h; simp only [Except.map] at h; injection h with h; rw [← h]
    | error e =>
        rw [hg] at h; simp only [Except.map] at h; exact absurd h (by simp)


/-!
Claim theorems.  Each theorem below settles one claim about the engine;
the counterexample and witness theorems instantiate them on the concrete
scenarios defined above.
-/

/-- C1, counterexample: on a COMPLETE decision at the instruction step of
wfA, whose resolved next step end_a has type END, the engine classifies the
transition as ADVANCE (not POP), keeps the frame on the stack, and leaves
the session with an END step as the current step of the active frame at the
start of the next turn. -/
theorem c1_counterexample :
    apply_decision repoA sessA frameA wfA decComplete =
      Except.ok (advanceFrame sessA frameA "end_a",
        StateMachineTransition.ADVANCE) ∧
    stepA1.type = StepType.INSTRUCTION ∧
    resolve_next_step_id stepA1 decComplete = some "end_a" ∧
    wfA.steps.lookup "end_a" = some stepAEnd ∧
    stepAEnd.type = StepType.END ∧
    handle_message repoA (llmOf decComplete) (llmOf narrDec) sessA "done" =
      Except.ok (sessA_after, narrDec) ∧
    sessA_after.stack.getLast? =
      some { workflow_name := "wf_a", current_step_id := "end_a" } :=
  ⟨rfl, rfl, rfl, rfl, rfl, rfl, rfl⟩

/-- C1, amended: a COMPLETE decision on a non-END step whose resolved next
step exists is an ordinary ADVANCE even when that next step has type END
(the END step becomes the current step and will receive its own turn); a
frame is popped only when a COMPLETE decision arrives while the current
step itself has type END, and the summary then delivered to a surviving
parent is the decision reply_to_user, not the END step goal. -/
theorem c1_advance_to_end_is_plain_advance (repo : WorkflowRepository)
    (session : SessionState) (frame : Frame) (workflow : Workflow)
    (current_step : Step) (decision : StepDecision)
    (hstep : workflow.steps.lookup frame.current_step_id = some current_step)
    (hst : decision.status = StepStatus.COMPLETE) :
    (∀ next_step_id : String, current_step.type ≠ StepType.END →
        resolve_next_step_id current_step decision = some next_step_id →
        (workflow.steps.lookup next_step_id).isSome = true →
        apply_decision repo session frame workflow decision =
          Except.ok (advanceFrame session frame next_step_id,
            StateMachineTransition.ADVANCE)) ∧
    (current_step.type = StepType.END →
        apply_decision repo session frame workflow decision =
          Except.ok (pop_frame session workflow decision,
            StateMachineTransition.POP) ∧
        (child_result_of workflow decision).summary = decision.reply_to_user ∧
        ∀ parent_frame, session.stack.dropLast.getLast? = some parent_frame →
          (pop_frame session workflow decision).stack.getLast? =
            some { parent_frame with
              pending_child_result :=
                some (child_result_of workflow decision) }) := by
  constructor
  · intro next_step_id hty hres hnid
    rw [apply_decision_of_complete repo session frame workflow decision
      current_step hst hstep, if_neg hty, hres]
    simp [hnid]
  · intro hty
    refine ⟨?_, rfl, ?_⟩
    · rw [apply_decision_of_complete repo session frame workflow decision
        current_step hst hstep, if_pos hty]
    · intro parent_frame hparent
      simp only [pop_frame, hparent, List.getLast?_concat]

/-- C1, witness: the amended theorem applied to the two concrete scenarios,
with every hypothesis discharged by evaluation. -/
theorem c1_advance_to_end_is_plain_advance_witness :
    apply_decision repoA sessA frameA wfA decComplete =
      Except.ok (advanceFrame sessA frameA "end_a",
        StateMachineTransition.ADVANCE) ∧
    apply_decision repoC sessC childFrameC childWfC decC =
      Except.ok (pop_frame sessC childWfC decC,
        StateMachineTransition.POP) :=
  ⟨(c1_advance_to_end_is_plain_advance repoA sessA frameA wfA stepA1
      decComplete rfl rfl).1 "end_a" (by decide) rfl rfl,
   ((c1_advance_to_end_is_plain_advance repoC sessC childFrameC childWfC
      endStepC decC rfl rfl).2 rfl).1⟩


/-- C2: on the turn that pops the child frame of sessC, _apply_decision
does write the child WorkflowResult into the parent mailbox, but
handle_message clears that mailbox later in the very same turn, so the
result is gone by the end of the pop turn and is never included in any
later step-execution prompt: delivery happens zero times, not once. -/
theorem c2_mailbox_cleared_on_the_pop_turn_itself :
    apply_decision repoC sessC childFrameC childWfC decC =
      Except.ok (sessC_popped, StateMachineTransition.POP) ∧
    sessC_popped.stack.getLast? = some { parentFrameC with
      pending_child_result := some (child_result_of childWfC decC) } ∧
    handle_message repoC (llmOf decC) (llmOf narrDec) sessC "ok" =
      Except.error ("POP transition requires child_result", sessC_err) ∧
    sessC_err.stack.getLast? = some parentFrameC ∧
    parentFrameC.pending_child_result = none :=
  ⟨rfl, rfl, rfl, rfl, rfl⟩

/-- C3: on the pop turn with a parent remaining, handle_message never
returns a narrator decision at all: the mailbox has already been cleared
when the transition metadata is built, the POP context of the
step-introduction prompt then raises, and the turn fails with that
ValueError instead of producing a reply. -/
theorem c3_pop_narration_raises_instead_of_replying :
    (handle_message repoC (llmOf decC) (llmOf narrDec) sessC "ok").toOption =
      none ∧
    handle_message repoC (llmOf decC) (llmOf narrDec) sessC "ok" =
      Except.error ("POP transition requires child_result", sessC_err) ∧
    build_transition_context endStepC
      { transition_type := StateMachineTransition.POP,
        reasoning := decC.reasoning,
        workflow_link := none,
        child_result := none } =
      Except.error "POP transition requires child_result" :=
  ⟨rfl, rfl, rfl⟩

/-- C7: a turn of handle_message that fails with an error can leave the
session mutated: on the pop turn of sessC the child frame has been popped
and the parent mailbox overwritten before the ValueError is raised, so the
failed turn does not leave the session as it was. -/
theorem c7_failed_turn_leaves_session_mutated :
    handle_message repoC (llmOf decC) (llmOf narrDec) sessC "ok" =
      Except.error ("POP transition requires child_result", sessC_err) ∧
    sessC_err.stack.length = 1 ∧
    sessC.stack.length = 2 ∧
    sessC.stack.getLast? = some childFrameC ∧
    sessC_err.stack.getLast? = some parentFrameC :=
  ⟨rfl, rfl, rfl, rfl, rfl⟩

/-- C4: a CALL_WORKFLOW decision whose result_value is missing (None or the
empty string, both falsy in Python) or names a workflow absent from the
store yields HOLD and returns the session entirely unchanged. -/
theorem c4_call_workflow_invalid_target_holds (repo : WorkflowRepository)
    (session : SessionState) (frame : Frame) (workflow : Workflow)
    (decision : StepDecision)
    (hst : decision.status = StepStatus.CALL_WORKFLOW)
    (htarget : decision.result_value = none ∨
      ∃ target, decision.result_value = some target ∧
        repo.lookup target = none) :
    apply_decision repo session frame workflow decision =
      Except.ok (session, StateMachineTransition.HOLD) := by
  rw [apply_decision_of_call repo session frame workflow decision hst]
  rcases htarget with hnone | ⟨target, hsome, hmiss⟩
  · rw [hnone]
  · rw [hsome]
    by_cases hempty : target = ""
    · simp [hempty]
    · simp only [if_neg hempty]
      have : workflow_exists repo target = false := by
        simp [workflow_exists, hmiss]
      simp [this]

/-- C4, witness: the theorem applied to concrete decisions at the
instruction step of wfA, once with a missing target and once with an
unknown one. -/
theorem c4_call_workflow_invalid_target_holds_witness :
    apply_decision repoA sessA frameA wfA decCallNone =
      Except.ok (sessA, StateMachineTransition.HOLD) ∧
    apply_decision repoA sessA frameA wfA decCallGhost =
      Except.ok (sessA, StateMachineTransition.HOLD) :=
  ⟨c4_call_workflow_invalid_target_holds repoA sessA frameA wfA decCallNone
      rfl (Or.inl rfl),
   c4_call_workflow_invalid_target_holds repoA sessA frameA wfA decCallGhost
      rfl (Or.inr ⟨"wf_ghost", rfl, rfl⟩)⟩


/-- C5: on a COMPLETE decision at an ask_choice step with options, the
option whose id equals the result_value determines the new current step id;
with no matching option the resolution falls back to the default next_step;
in both cases the transition is ADVANCE when the resolved step exists. -/
theorem c5_ask_choice_resolution (repo : WorkflowRepository)
    (session : SessionState) (frame : Frame) (workflow : Workflow)
    (step : Step) (decision : StepDecision)
    (hstep : workflow.steps.lookup frame.current_step_id = some step)
    (hty : step.type = StepType.ASK_CHOICE)
    (hopts : step.options ≠ [])
    (hst : decision.status = StepStatus.COMPLETE) :
    (∀ opt : StepOption,
        step.options.find? (fun o => decision.result_value == some o.id) =
          some opt →
        (workflow.steps.lookup opt.next_step_id).isSome = true →
        apply_decision repo session frame workflow decision =
          Except.ok (advanceFrame session frame opt.next_step_id,
            StateMachineTransition.ADVANCE) ∧
        (advanceFrame session frame opt.next_step_id).stack.getLast? =
          some { frame with current_step_id := opt.next_step_id }) ∧
    (step.options.find? (fun o => decision.result_value == some o.id) =
        none →
        resolve_next_step_id step decision = step.next_step ∧
        ∀ def_id : String, step.next_step = some def_id →
          (workflow.steps.lookup def_id).isSome = true →
          apply_decision repo session frame workflow decision =
            Except.ok (advanceFrame session frame def_id,
              StateMachineTransition.ADVANCE)) := by
  have hne : step.type ≠ StepType.END := by rw [hty]; decide
  constructor
  · intro opt hfind hnid
    have hres : resolve_next_step_id step decision = some opt.next_step_id := by
      unfold resolve_next_step_id
      rw [if_pos ⟨hty, hopts⟩, hfind]
    constructor
    · rw [apply_decision_of_complete repo session frame workflow decision
        step hst hstep, if_neg hne, hres]
      simp [hnid]
    · simp [advanceFrame]
  · intro hfind
    have hres : resolve_next_step_id step decision = step.next_step := by
      unfold resolve_next_step_id
      rw [if_pos ⟨hty, hopts⟩, hfind]
    refine ⟨hres, ?_⟩
    intro def_id hdef hnid
    rw [apply_decision_of_complete repo session frame workflow decision
      step hst hstep, if_neg hne, hres, hdef]
    simp [hnid]

/-- C5, witness: the theorem applied at the concrete choice step, once with
a matching option and once with an unmatched result value. -/
theorem c5_ask_choice_resolution_witness :
    apply_decision repoB sessB frameB wfB decChoice =
      Except.ok (advanceFrame sessB frameB "b2",
        StateMachineTransition.ADVANCE) ∧
    apply_decision repoB sessB frameB wfB decChoiceNoMatch =
      Except.ok (advanceFrame sessB frameB "b4",
        StateMachineTransition.ADVANCE) :=
  ⟨((c5_ask_choice_resolution repoB sessB frameB wfB stepB1 decChoice rfl rfl
      (by decide) rfl).1
      { id := "opt1", label := "Left", next_step_id := "b2" } rfl rfl).1,
   ((c5_ask_choice_resolution repoB sessB frameB wfB stepB1 decChoiceNoMatch
      rfl rfl (by decide) rfl).2 rfl).2 "b4" rfl rfl⟩

/-- C6, counterexample: the fallback reply the executor actually produces
is the string System Error. Please try again. (capital E, full stop after
Error), not the string System error, please try again. stated by the
claim. -/
theorem c6_counterexample :
    run_turn (llmFailing "boom") stepA1 frameA "hi" [] =
      { reply_to_user := "System Error. Please try again."
        status := StepStatus.IN_PROGRESS
        result_value := none
        reasoning := "Error: boom" } ∧
    decide (("System Error. Please try again." : String) =
      "System error, please try again.") = false :=
  ⟨rfl, by decide⟩

/-- C6, amended: when the LLM call inside the executor fails, run_turn
returns the fallback decision with status IN_PROGRESS, reply_to_user equal
to System Error. Please try again., and the error carried in the reasoning;
that decision maps to HOLD in the engine with the session unchanged. -/
theorem c6_llm_failure_fallback_holds (executor_llm : LLMProvider)
    (step : Step) (frame : Frame) (user_input : String)
    (history : List Message) (e : String)
    (hfail : executor_llm (buildMessages (build_system_prompt step frame)
      history user_input) = Except.error e) :
    run_turn executor_llm step frame user_input history =
      { reply_to_user := "System Error. Please try again."
        status := StepStatus.IN_PROGRESS
        result_value := none
        reasoning := "Error: " ++ e } ∧
    ∀ (repo : WorkflowRepository) (session : SessionState)
      (workflow : Workflow),
      apply_decision repo session frame workflow
          (run_turn executor_llm step frame user_input history) =
        Except.ok (session, StateMachineTransition.HOLD) := by
  have h1 := run_turn_of_error executor_llm step frame user_input history e hfail
  refine ⟨h1, ?_⟩
  intro repo session workflow
  exact apply_decision_of_in_progress repo session frame workflow _ (by rw [h1])

/-- C6, witness: the amended theorem applied to a concrete failing LLM at
the instruction step of wfA. -/
theorem c6_llm_failure_fallback_holds_witness :
    run_turn (llmFailing "boom") stepA1 frameA "hi" [] =
      { reply_to_user := "System Error. Please try again."
        status := StepStatus.IN_PROGRESS
        result_value := none
        reasoning := "Error: boom" } ∧
    apply_decision repoA sessA frameA wfA
        (run_turn (llmFailing "boom") stepA1 frameA "hi" []) =
      Except.ok (sessA, StateMachineTransition.HOLD) :=
  ⟨(c6_llm_failure_fallback_holds (llmFailing "boom") stepA1 frameA "hi" []
      "boom" rfl).1,
   (c6_llm_failure_fallback_holds (llmFailing "boom") stepA1 frameA "hi" []
      "boom" rfl).2 repoA sessA wfA⟩

/-- C8, counterexample: when the narrator LLM call succeeds with a decision
whose status is COMPLETE, introduce_step returns that decision unchanged,
so its result is not always IN_PROGRESS. -/
theorem c8_counterexample :
    introduce_step (llmOf narrDecComplete) stepA1 stepAEnd metaAdvance [] "" =
      Except.ok narrDecComplete ∧
    narrDecComplete.status = StepStatus.COMPLETE ∧
    decide (StepStatus.COMPLETE = StepStatus.IN_PROGRESS) = false :=
  ⟨rfl, rfl, by decide⟩

/-- C8, amended: introduce_step returns the deterministic fallback with
status IN_PROGRESS and reply Lets proceed followed by the goal only when
the LLM call fails; when the call succeeds it returns the LLM decision
unmodified, whatever its status. -/
theorem c8_narrator_in_progress_only_on_fallback (llm : LLMProvider)
    (from_step to_step : Step) (meta : TransitionMeta)
    (history : List Message) (user_input : String) :
    (∀ prompt e,
        build_step_introduction_prompt from_step to_step meta =
          Except.ok prompt →
        llm (buildMessages prompt history user_input) = Except.error e →
        introduce_step llm from_step to_step meta history user_input =
          Except.ok { reply_to_user := "Let\x27s proceed. " ++ to_step.goal,
                      status := StepStatus.IN_PROGRESS,
                      result_value := none,
                      reasoning := "Error during introduction: " ++ e }) ∧
    (∀ prompt d,
        build_step_introduction_prompt from_step to_step meta =
          Except.ok prompt →
        llm (buildMessages prompt history user_input) = Except.ok d →
        introduce_step llm from_step to_step meta history user_input =
          Except.ok d) := by
  constructor
  · intro prompt e hp hllm
    simp only [introduce_step, hp, hllm]
  · intro prompt d hp hllm
    simp only [introduce_step, hp, hllm]

/-- C8, witness: the amended theorem applied to a failing and to a
succeeding narrator LLM on a concrete ADVANCE transition. -/
theorem c8_narrator_in_progress_only_on_fallback_witness :
    introduce_step (llmFailing "down") stepA1 stepAEnd metaAdvance [] "" =
      Except.ok { reply_to_user := "Let\x27s proceed. All fixed.",
                  status := StepStatus.IN_PROGRESS,
                  result_value := none,
                  reasoning := "Error during introduction: down" } ∧
    introduce_step (llmOf narrDec) stepA1 stepAEnd metaAdvance [] "" =
      Except.ok narrDec :=
  ⟨(c8_narrator_in_progress_only_on_fallback (llmFailing "down") stepA1
      stepAEnd metaAdvance [] "").1 _ "down" rfl rfl,
   (c8_narrator_in_progress_only_on_fallback (llmOf narrDec) stepA1
      stepAEnd metaAdvance [] "").2 _ narrDec rfl rfl⟩


/-- C9: neither a turn of the engine (successful or failed) nor the
cold-start path of the chat service ever writes session.slots, and every
WorkflowResult deposited into a parent mailbox by a pop carries an empty
slots_collected mapping; in particular, completing an ask_slot step records
the collected value nowhere in the session state. -/
theorem c9_slots_never_written (repo : WorkflowRepository)
    (executor_llm narrator_llm : LLMProvider) (session : SessionState)
    (user_input : String) (router_match : Option String) :
    (∀ s' d, handle_message repo executor_llm narrator_llm session
        user_input = Except.ok (s', d) → s'.slots = session.slots) ∧
    (∀ m s', handle_message repo executor_llm narrator_llm session
        user_input = Except.error (m, s') → s'.slots = session.slots) ∧
    (∀ s', handle_cold_start repo session router_match = Except.ok s' →
        s'.slots = session.slots) ∧
    (∀ (frame : Frame) (workflow : Workflow) (decision : StepDecision)
        (s' : SessionState),
        apply_decision repo session frame workflow decision =
          Except.ok (s', StateMachineTransition.POP) →
        ∀ parent, s'.stack.getLast? = some parent →
          ∀ r, parent.pending_child_result = some r →
            r.slots_collected = []) := by
  refine ⟨(handle_message_slots repo executor_llm narrator_llm session
      user_input).1,
    (handle_message_slots repo executor_llm narrator_llm session
      user_input).2,
    fun s' h => handle_cold_start_slots repo session router_match s' h, ?_⟩
  intro frame workflow decision s' happ parent hparent r hr
  have hshape := apply_decision_pop_shape repo session frame workflow
    decision s' happ
  subst hshape
  have hmail := pop_frame_parent_mailbox session workflow decision parent
    hparent
  rw [hmail] at hr
  injection hr with hr
  rw [← hr]
  rfl

/-- C9, witness: the theorem applied to a successful concrete turn and to a
concrete pop that delivers a child result. -/
theorem c9_slots_never_written_witness :
    sessA_after.slots = sessA.slots ∧
    (child_result_of childWfC decC).slots_collected = [] :=
  ⟨(c9_slots_never_written repoA (llmOf decComplete) (llmOf narrDec) sessA
      "done" none).1 sessA_after narrDec rfl,
   (c9_slots_never_written repoC (llmOf decC) (llmOf narrDec) sessC "ok"
      none).2.2.2 childFrameC childWfC decC sessC_popped rfl
      { parentFrameC with
        pending_child_result := some (child_result_of childWfC decC) } rfl
      (child_result_of childWfC decC) rfl⟩

/-- C10: a COMPLETE decision on a non-END step with no default next step
and no option matching the result value makes handle_message fail with the
ValueError raised in _apply_decision, and the error carries the session
exactly as it was at the start of the turn: nothing has been mutated at the
point of failure. -/
theorem c10_dead_end_refuses_turn (repo : WorkflowRepository)
    (executor_llm narrator_llm : LLMProvider) (session : SessionState)
    (user_input : String) (frame : Frame) (workflow : Workflow)
    (step : Step) (decision : StepDecision)
    (hframe : session.stack.getLast? = some frame)
    (hwf : get_workflow repo frame.workflow_name = Except.ok workflow)
    (hstep : workflow.steps.lookup frame.current_step_id = some step)
    (hty : step.type ≠ StepType.END)
    (hnext : step.next_step = none)
    (hopt : step.options.find?
      (fun o => decision.result_value == some o.id) = none)
    (hdec : executor_llm (buildMessages (build_system_prompt step frame)
      session.history user_input) = Except.ok decision)
    (hst : decision.status = StepStatus.COMPLETE) :
    handle_message repo executor_llm narrator_llm session user_input =
      Except.error (missing_next_step_error step decision, session) := by
  have hctx : get_execution_context repo session =
      Except.ok (frame, workflow, step) := by
    simp only [get_execution_context, hframe, hwf, hstep]
  have hrt : run_turn executor_llm step frame user_input session.history =
      decision :=
    run_turn_of_ok executor_llm step frame user_input session.history
      decision hdec
  have hres : resolve_next_step_id step decision = none := by
    unfold resolve_next_step_id
    split
    · rw [hopt, hnext]
    · exact hnext
  have happ : apply_decision repo session frame workflow decision =
      Except.error (missing_next_step_error step decision) := by
    rw [apply_decision_of_complete repo session frame workflow decision step
      hst hstep, if_neg hty, hres]
  simp only [handle_message, hframe, hctx, hrt, happ]
  simp

/-- C10, witness: the theorem applied to the concrete dead-end step. -/
theorem c10_dead_end_refuses_turn_witness :
    handle_message repoD (llmOf decComplete) (llmOf narrDec) sessD "go" =
      Except.error (missing_next_step_error stepD1 decComplete, sessD) :=
  c10_dead_end_refuses_turn repoD (llmOf decComplete) (llmOf narrDec) sessD
    "go" frameD wfD stepD1 decComplete rfl rfl rfl (by decide) rfl rfl rfl
    rfl


end DIY
